import Mathlib

/-!
Verification of the concurrency controller in
`src/Backend/utils/concurrency.util.js` (class `ConcurrencyController`).

The controller is a single-threaded (JS event loop) task-queue engine.  Its
state is embedded shallowly below: every method of the class becomes a pure
function on `CState`; the asynchronous retry/timeout path of a single task is
embedded separately as functions on an abstract per-attempt body behaviour.
JS `Map` objects are embedded as association lists with `Map.set`/`delete`
semantics; JS `x || d` defaulting (where `0`, `null`, `undefined` and the
empty string are falsy) is embedded explicitly.  Observer callbacks and event
emission are side-effect hooks that do not touch controller state and are
elided; calls to `task.resolve` / `task.reject` / `abortController.abort()`
are recorded in append-only logs (`resolutions`, `rejections`, `abortedIds`)
so that the settling of a task's promise is observable in the model.
-/

namespace ConcModel

/-- JS `x || d` for an optional natural-number option (`0`/`null`/`undefined`
are falsy, so they fall back to the default). -/
def jsNatOr : Option Nat → Nat → Nat
  | none, d => d
  | some v, d => if v = 0 then d else v

/-- JS `x || d` for an optional integer (`0` is falsy). -/
def jsIntOr : Option Int → Int → Int
  | none, d => d
  | some v, d => if v = 0 then d else v

/-- JS falsiness of a possibly-missing string (`!taskConfig.id`):
`undefined` and the empty string are falsy. -/
def idFalsy : Option String → Bool
  | none => true
  | some s => decide (s = "")

/-- A queued/running task object (`task` created in `addTask`, lines 85-91).
`attempts` starts at 0 and is incremented in `executeTask`; `hasController`
records whether `task.abortController` has been assigned (it is assigned at
dispatch, line 220). `priority` is kept raw: the source stores
`taskConfig.priority` unchanged, which may be `undefined`. -/
structure QTask where
  id : String
  priority : Option Int
  attempts : Nat
  hasController : Bool
deriving DecidableEq

/-- Reason recorded when the source calls `task.reject`. -/
inductive RejectReason
  /-- `cancelTask`: `task.reject(new Error('任务被取消'))`, line 387. -/
  | cancelled
  /-- `clearQueue`: `task.reject(new Error('队列被清空'))`, line 400. -/
  | queueCleared
  /-- `executeTask` failure path: `task.reject(taskResult)`, line 287. -/
  | failedResult
deriving DecidableEq

/-- The `TaskResult` record built in `executeTask` (lines 239-245 and
266-272); `data`/`error`/`duration` carry no information the claims need and
are elided. -/
structure TaskResultM where
  id : String
  success : Bool
  retryCount : Nat
deriving DecidableEq

/-- The `this.stats` record (constructor lines 52-59). -/
structure Stats where
  totalTasks : Nat
  completedTasks : Nat
  failedTasks : Nat
  retriedTasks : Nat
  startTime : Option Nat
  endTime : Option Nat
deriving DecidableEq

/-- The mutable fields of a `ConcurrencyController` instance, plus the three
observation logs for `resolve`/`reject`/`abort` calls. -/
structure CState where
  maxConcurrency : Nat
  maxQueueSize : Nat
  retryDelay : Nat
  defaultTimeout : Nat
  taskQueue : List QTask
  runningTasks : List (String × QTask)
  completedTasks : List (String × TaskResultM)
  isRunning : Bool
  isPaused : Bool
  stats : Stats
  rejections : List (String × RejectReason)
  resolutions : List String
  abortedIds : List String
deriving DecidableEq

/-- Constructor options (`options` argument, lines 36-40). -/
structure CtorOptions where
  maxConcurrency : Option Nat
  maxQueueSize : Option Nat
  retryDelay : Option Nat
  defaultTimeout : Option Nat
deriving DecidableEq

/-- The constructor (lines 36-63). -/
def initState (o : CtorOptions) : CState :=
  { maxConcurrency := jsNatOr o.maxConcurrency 5
    maxQueueSize := jsNatOr o.maxQueueSize 1000
    retryDelay := jsNatOr o.retryDelay 1000
    defaultTimeout := jsNatOr o.defaultTimeout 30000
    taskQueue := []
    runningTasks := []
    completedTasks := []
    isRunning := false
    isPaused := false
    stats := { totalTasks := 0, completedTasks := 0, failedTasks := 0,
               retriedTasks := 0, startTime := none, endTime := none }
    rejections := []
    resolutions := []
    abortedIds := [] }

/-- JS `Map.prototype.set`: replace the value at an existing key in place,
otherwise append a fresh entry. -/
def jsMapSet {α : Type} (m : List (String × α)) (k : String) (v : α) :
    List (String × α) :=
  if m.any (fun p => decide (p.1 = k)) then
    m.map (fun p => if p.1 = k then (k, v) else p)
  else m ++ [(k, v)]

/-- JS `Map.prototype.delete`. -/
def jsMapDelete {α : Type} (m : List (String × α)) (k : String) :
    List (String × α) :=
  m.filter (fun p => decide (p.1 ≠ k))

/-- JS `Map.prototype.has`. -/
def jsMapHas {α : Type} (m : List (String × α)) (k : String) : Bool :=
  m.any (fun p => decide (p.1 = k))

/-- JS `Map.prototype.get` (first entry with the key). -/
def jsMapGet {α : Type} : List (String × α) → String → Option α
  | [], _ => none
  | p :: ps, k => if p.1 = k then some p.2 else jsMapGet ps k

/-- `Array.prototype.splice(n, 0, a)`: insert at index `n` (clamped to the
length, as `splice` clamps). -/
def insertAt {α : Type} (n : Nat) (a : α) : List α → List α
  | [] => [a]
  | x :: xs =>
      match n with
      | 0 => a :: x :: xs
      | Nat.succ m => x :: insertAt m a xs

/-- `Array.prototype.splice(i, 1)`: remove the element at index `i`. -/
def removeAt {α : Type} : List α → Nat → List α
  | [], _ => []
  | _ :: xs, 0 => xs
  | x :: xs, Nat.succ n => x :: removeAt xs n

/-- `Array.prototype.findIndex`, with explicit start offset. -/
def findIndexGo {α : Type} (p : α → Bool) : List α → Nat → Option Nat
  | [], _ => none
  | x :: xs, i => if p x then some i else findIndexGo p xs (i + 1)

/-- `Array.prototype.findIndex` (returning `none` for `-1`). -/
def jsFindIndex {α : Type} (p : α → Bool) (l : List α) : Option Nat :=
  findIndexGo p l 0

/-- The comparison `this.taskQueue[i].priority >= priority` (line 118).  A
stored `undefined` priority compares as `NaN`, so the comparison is false. -/
def priorityAtLeast (t : QTask) (p : Int) : Bool :=
  match t.priority with
  | none => false
  | some q => decide (p ≤ q)

/-- The backwards scan of `insertTaskByPriority` (lines 114-122):
`insertIndex` starts at `taskQueue.length`; scanning from the last index
down, the first element with `priority >= p` sets `insertIndex = i + 1` and
breaks.  `insertIndexGo queue p (i+1)` examines index `i`. -/
def insertIndexGo (queue : List QTask) (p : Int) : Nat → Nat
  | 0 => queue.length
  | Nat.succ i =>
      match queue[i]? with
      | some t => if priorityAtLeast t p then i + 1 else insertIndexGo queue p i
      | none => insertIndexGo queue p i

/-- `insertTaskByPriority` (lines 112-125): `priority = task.priority || 0`,
then splice at the computed index. -/
def insertTaskByPriority (queue : List QTask) (t : QTask) : List QTask :=
  let p : Int := jsIntOr t.priority 0
  insertAt (insertIndexGo queue p queue.length) t queue

/-- The synchronous prefix of `executeTask` (lines 214-223): increment
`task.attempts`, create the (single) `AbortController`, assign it to the
task, and add the task to `runningTasks`. -/
def executeTaskStart (s : CState) (t : QTask) : CState :=
  let t1 : QTask := { t with attempts := t.attempts + 1, hasController := true }
  { s with runningTasks := jsMapSet s.runningTasks t1.id t1 }

/-- `processNextTask` (lines 193-207): no-op unless running, unpaused and
below the concurrency ceiling; otherwise shift the queue head and hand it to
`executeTask` (whose prefix up to the first `await` runs synchronously). -/
def processNextTask (s : CState) : CState :=
  if !s.isRunning || s.isPaused ||
      decide (s.maxConcurrency ≤ s.runningTasks.length) then s
  else
    match s.taskQueue with
    | [] => s
    | t :: rest => executeTaskStart { s with taskQueue := rest } t

/-- The caller-supplied `taskConfig` as far as `addTask` inspects it.
`task : Bool` records whether a `task` function (the body) is present. -/
structure TaskCfg where
  id : Option String
  task : Bool
  priority : Option Int
deriving DecidableEq

/-- The outcome of a submission: which way the promise executor settled
synchronously (or that the task was queued). -/
inductive SubmitOutcome
  /-- `reject(new Error('任务配置无效：缺少 id 或 task'))`, line 74. -/
  | validationError
  /-- `reject(new Error('队列已满...'))`, line 80. -/
  | queueFullError
  /-- the task was inserted into the queue. -/
  | queued
deriving DecidableEq

/-- `addTask` (lines 70-105): validate, check capacity, insert by priority,
bump `totalTasks`, and (when running and unpaused) call `processNextTask`. -/
def addTask (s : CState) (cfg : TaskCfg) : CState × SubmitOutcome :=
  if idFalsy cfg.id || !cfg.task then (s, SubmitOutcome.validationError)
  else if s.maxQueueSize ≤ s.taskQueue.length then
    (s, SubmitOutcome.queueFullError)
  else
    let t : QTask :=
      { id := cfg.id.getD "", priority := cfg.priority,
        attempts := 0, hasController := false }
    let s1 := { s with
      taskQueue := insertTaskByPriority s.taskQueue t,
      stats := { s.stats with totalTasks := s.stats.totalTasks + 1 } }
    let s2 := if s1.isRunning && !s1.isPaused then processNextTask s1 else s1
    (s2, SubmitOutcome.queued)

/-- The settle continuation of `executeTask` after `runTaskWithRetry`
resolves or rejects (lines 237-295): record the `TaskResult` in
`completedTasks`, bump the success/failure counter, resolve or reject the
caller's promise, then (`finally`) delete the task from `runningTasks` and
call `processNextTask`. -/
def settleTask (s : CState) (t : QTask) (success : Bool) : CState :=
  let res : TaskResultM :=
    { id := t.id, success := success, retryCount := t.attempts - 1 }
  let s1 := { s with completedTasks := jsMapSet s.completedTasks t.id res }
  let s2 :=
    if success then
      { s1 with
        stats := { s1.stats with completedTasks := s1.stats.completedTasks + 1 },
        resolutions := s1.resolutions ++ [t.id] }
    else
      { s1 with
        stats := { s1.stats with failedTasks := s1.stats.failedTasks + 1 },
        rejections := s1.rejections ++ [(t.id, RejectReason.failedResult)] }
  processNextTask { s2 with runningTasks := jsMapDelete s2.runningTasks t.id }

/-- `cancelTask` (lines 372-392).  Running branch: abort the controller (if
assigned) and delete from `runningTasks` — the future is NOT rejected and
`processNextTask` is NOT called.  Queued branch: splice out and reject with
the Cancelled error. -/
def cancelTask (s : CState) (taskId : String) : CState × Bool :=
  if jsMapHas s.runningTasks taskId then
    let ab : Bool :=
      match jsMapGet s.runningTasks taskId with
      | some t => t.hasController
      | none => false
    ({ s with
        abortedIds := if ab then s.abortedIds ++ [taskId] else s.abortedIds,
        runningTasks := jsMapDelete s.runningTasks taskId }, true)
  else
    match jsFindIndex (fun t => decide (t.id = taskId)) s.taskQueue with
    | some i =>
        ({ s with
            taskQueue := removeAt s.taskQueue i,
            rejections := s.rejections ++ [(taskId, RejectReason.cancelled)] },
         true)
    | none => (s, false)

/-- `clearQueue` (lines 397-404): reject every queued task's future with the
QueueCleared error and empty the queue. -/
def clearQueue (s : CState) : CState :=
  { s with
    rejections :=
      s.rejections ++ s.taskQueue.map (fun t => (t.id, RejectReason.queueCleared)),
    taskQueue := [] }

/-- `start` (lines 140-152): no-op when already running; otherwise set the
flags, record `startTime` (it does not touch `endTime`), and call
`processNextTask`. -/
def start (s : CState) (now : Nat) : CState :=
  if s.isRunning then s
  else
    processNextTask
      { s with isRunning := true, isPaused := false,
               stats := { s.stats with startTime := some now } }

/-- `pause` (lines 157-160). -/
def pause (s : CState) : CState :=
  { s with isPaused := true }

/-- `resume` (lines 165-169). -/
def resume (s : CState) : CState :=
  processNextTask { s with isPaused := false }

/-- `stop` (lines 174-187): clear the flags, record `endTime`, and abort the
signal of every running task that has a controller (the queue and the
completed map are untouched, and `runningTasks` is not cleared). -/
def stop (s : CState) (now : Nat) : CState :=
  { s with
    isRunning := false, isPaused := false,
    stats := { s.stats with endTime := some now },
    abortedIds :=
      s.abortedIds ++
        (s.runningTasks.filter (fun p => p.2.hasController)).map Prod.fst }

/-- The snapshot returned by `getStats` (lines 410-425).  The spread
`{...this.stats}` is overridden by `completedTasks: this.completedTasks.size`
(the size of the completed-results map, not the success counter).
`successRate` in the source is the string `(completed/total*100).toFixed(2)+'%'`
(`'0%'` when `totalTasks` is 0); the snapshot keeps its numeric content
`completed/total*100` as a rational, eliding the two-decimal string
formatting. -/
structure StatsSnapshot where
  totalTasks : Nat
  completedTasks : Nat
  failedTasks : Nat
  retriedTasks : Nat
  duration : Int
  queueSize : Nat
  runningTasks : Nat
  isRunning : Bool
  isPaused : Bool
  successRate : ℚ
deriving DecidableEq

/-- `getStats` (lines 410-425).  `duration` is
`this.stats.startTime ? (this.stats.endTime || now) - this.stats.startTime : 0`. -/
def getStats (s : CState) (now : Nat) : StatsSnapshot :=
  let duration : Int :=
    match s.stats.startTime with
    | none => 0
    | some st =>
        if st = 0 then 0 else (jsNatOr s.stats.endTime now : Int) - (st : Int)
  { totalTasks := s.stats.totalTasks
    completedTasks := s.completedTasks.length
    failedTasks := s.stats.failedTasks
    retriedTasks := s.stats.retriedTasks
    duration := duration
    queueSize := s.taskQueue.length
    runningTasks := s.runningTasks.length
    isRunning := s.isRunning
    isPaused := s.isPaused
    successRate :=
      if 0 < s.stats.totalTasks then
        ((s.stats.completedTasks : ℚ) / (s.stats.totalTasks : ℚ)) * 100
      else 0 }

/-! ### The asynchronous execution path of a single dispatched task

`executeTask` (lines 214-296) awaits `runTaskWithRetry` (lines 305-333),
which loops `attempt = 0 .. maxRetries` over the SAME abort signal, invoking
`task.task(task.data, signal)` each time.  A body invocation is abstracted by
its observable behaviour: it settles with a value, settles with an error, or
never settles (`hangs`) — the latter models a body that ignores the
cancellation signal and keeps running, in which case the `await` never
resumes.  The signal state at the start of attempt `i` (set asynchronously by
the timeout timer of line 228) is abstracted as a function `aborted i`. -/

/-- Observable behaviour of one invocation of the task body. -/
inductive AttemptRes
  | settlesOk (v : Nat)
  | settlesErr (code : Nat)
  | hangs
deriving DecidableEq

/-- Errors flowing through the retry loop. -/
inductive MErr
  /-- `throw new Error('任务被中止')` at line 313 when `signal.aborted`. -/
  | abortedErr
  /-- an error raised/rejected by the body itself. -/
  | bodyErr (code : Nat)
deriving DecidableEq

/-- Result of the awaited `runTaskWithRetry` promise. -/
inductive RunRes
  | ok (v : Nat)
  | err (e : MErr)
deriving DecidableEq

/-- Outcome of `runTaskWithRetry` together with the instrumentation the
claims are about: `result = none` means the awaited promise never settles (a
body invocation hung); `invocations` counts calls of `task.task`; `retried`
counts increments of `this.stats.retriedTasks` (line 325). -/
structure RunOutcome where
  result : Option RunRes
  invocations : Nat
  retried : Nat
deriving DecidableEq

/-- The loop body of `runTaskWithRetry` (lines 309-330).  `Nat.succ r`
remaining iterations means the current `attempt` still runs and
`attempt < maxRetries` holds iff `0 < r`.  On an error (abort check or body
failure) with attempts left: bump `retriedTasks`, wait `retryDelay` and
continue; on the last attempt the error is thrown to the caller
(`throw lastError`, line 332).  A hanging body invocation leaves the `await`
of line 317 pending forever. -/
def runRetryGo (body : Nat → AttemptRes) (aborted : Nat → Bool) :
    Nat → Nat → Option MErr → Nat → Nat → RunOutcome
  | _, 0, lastError, invs, retr =>
      { result := some (RunRes.err (lastError.getD MErr.abortedErr)),
        invocations := invs, retried := retr }
  | attempt, Nat.succ r, _, invs, retr =>
      if aborted attempt then
        if 0 < r then
          runRetryGo body aborted (attempt + 1) r (some MErr.abortedErr)
            invs (retr + 1)
        else
          { result := some (RunRes.err MErr.abortedErr),
            invocations := invs, retried := retr }
      else
        match body attempt with
        | AttemptRes.settlesOk v =>
            { result := some (RunRes.ok v), invocations := invs + 1,
              retried := retr }
        | AttemptRes.settlesErr c =>
            if 0 < r then
              runRetryGo body aborted (attempt + 1) r (some (MErr.bodyErr c))
                (invs + 1) (retr + 1)
            else
              { result := some (RunRes.err (MErr.bodyErr c)),
                invocations := invs + 1, retried := retr }
        | AttemptRes.hangs =>
            { result := none, invocations := invs + 1, retried := retr }

/-- `runTaskWithRetry` (lines 305-333): `maxRetries = task.retries || 0`,
then the loop over `maxRetries + 1` attempts with the shared signal. -/
def runTaskWithRetry (retries : Option Nat) (body : Nat → AttemptRes)
    (aborted : Nat → Bool) : RunOutcome :=
  runRetryGo body aborted 0 (jsNatOr retries 0 + 1) none 0 0

/-- Outcome of one `executeTask` call, with instrumentation:
`controllersCreated` counts `new AbortController()` (line 219) and
`timersCreated` counts `setTimeout` (line 228) during the whole call
(`runTaskWithRetry` creates neither); `attemptsField` is the value of
`task.attempts` after the call; `result = none` means the task's promise
never settles and the `finally` block is never reached. -/
structure ExecOutcome where
  result : Option TaskResultM
  invocations : Nat
  retried : Nat
  controllersCreated : Nat
  timersCreated : Nat
  attemptsField : Nat
deriving DecidableEq

/-- The execution of `executeTask` (lines 214-296) on a task whose
`attempts` field is `attempts0`, projected onto the retry path:
`task.attempts++` happens once, one `AbortController` and one timer are
created, then `runTaskWithRetry` is awaited; the `TaskResult` records
`retryCount: task.attempts - 1`. -/
def executeTaskRun (tid : String) (attempts0 : Nat) (retries : Option Nat)
    (body : Nat → AttemptRes) (aborted : Nat → Bool) : ExecOutcome :=
  let attempts := attempts0 + 1
  let ro := runTaskWithRetry retries body aborted
  { result :=
      match ro.result with
      | none => none
      | some (RunRes.ok _) =>
          some { id := tid, success := true, retryCount := attempts - 1 }
      | some (RunRes.err _) =>
          some { id := tid, success := false, retryCount := attempts - 1 }
    invocations := ro.invocations
    retried := ro.retried
    controllersCreated := 1
    timersCreated := 1
    attemptsField := attempts }

/-! ### The transition system

Every serialized critical section of the source (a synchronous method body,
or the synchronous continuation of an `await`) becomes one step.  `retryTick`
is the `stats.retriedTasks++` performed inside an in-flight
`runTaskWithRetry`, and `timerFire` is the timeout timer's
`abortController.abort()` — both run between the other steps. -/

/-- One serialized mutation of the controller state. -/
inductive Step : CState → CState → Prop
  | submit (s : CState) (cfg : TaskCfg) : Step s (addTask s cfg).1
  | sched (s : CState) : Step s (processNextTask s)
  | settle (s : CState) (t : QTask) (success : Bool) :
      Step s (settleTask s t success)
  | cancel (s : CState) (tid : String) : Step s (cancelTask s tid).1
  | clear (s : CState) : Step s (clearQueue s)
  | doStart (s : CState) (now : Nat) : Step s (start s now)
  | doStop (s : CState) (now : Nat) : Step s (stop s now)
  | doPause (s : CState) : Step s (pause s)
  | doResume (s : CState) : Step s (resume s)
  | retryTick (s : CState) :
      Step s { s with stats :=
        { s.stats with retriedTasks := s.stats.retriedTasks + 1 } }
  | timerFire (s : CState) (tid : String) :
      Step s { s with abortedIds := s.abortedIds ++ [tid] }

/-- States reachable from a freshly constructed controller. -/
inductive Reachable (o : CtorOptions) : CState → Prop
  | init : Reachable o (initState o)
  | step (s s' : CState) : Reachable o s → Step s s' → Reachable o s'

/-! ### Shared fixtures for concrete scenarios -/

/-- Constructor options used in the concrete scenarios:
`maxConcurrency = 1`, `maxQueueSize = 10`. -/
def opts1 : CtorOptions :=
  { maxConcurrency := some 1, maxQueueSize := some 10,
    retryDelay := none, defaultTimeout := none }

/-- A plain priority-0 descriptor with id `a`. -/
def cfgA : TaskCfg := { id := some "a", task := true, priority := some 0 }

/-- A plain priority-0 descriptor with id `b`. -/
def cfgB : TaskCfg := { id := some "b", task := true, priority := some 0 }

/-- A plain priority-0 descriptor with id `w`. -/
def cfgW : TaskCfg := { id := some "w", task := true, priority := some 0 }

/-- A priority-10 descriptor with id `b`. -/
def cfgB10 : TaskCfg := { id := some "b", task := true, priority := some 10 }

/-- The controller of `opts1` after `start()` at time 1. -/
def sStart : CState := start (initState opts1) 1

/-- After `start()` and `addTask(cfgA)`: task `a` is dispatched and running
(the queue is empty). -/
def sA : CState := (addTask sStart cfgA).1

/-- The task object for `a` as it exists in `sA.runningTasks` (one dispatch:
`attempts = 1`, controller assigned). -/
def aTask : QTask :=
  { id := "a", priority := some 0, attempts := 1, hasController := true }

/-- `sA` after also submitting `cfgB`: `a` running, `b` queued (the single
concurrency slot is taken). -/
def s6 : CState := (addTask sA cfgB).1

/-! ### Helper lemmas -/

theorem jsMapSet_length_le {α : Type} (m : List (String × α)) (k : String)
    (v : α) : (jsMapSet m k v).length ≤ m.length + 1 := by
  unfold jsMapSet
  split
  · simp only [List.length_map]
    exact Nat.le_succ m.length
  · simp

theorem jsMapDelete_length_le {α : Type} (m : List (String × α)) (k : String) :
    (jsMapDelete m k).length ≤ m.length :=
  List.length_filter_le _ m

/-- After `Map.set`, the key is present. -/
theorem jsMapSet_has {α : Type} (m : List (String × α)) (k : String) (v : α) :
    jsMapHas (jsMapSet m k v) k = true := by
  unfold jsMapHas jsMapSet
  split
  · next h =>
      rw [List.any_eq_true] at h ⊢
      obtain ⟨p, hp, hpk⟩ := h
      rw [decide_eq_true_iff] at hpk
      refine ⟨(k, v), List.mem_map.2 ⟨p, hp, ?_⟩, by simp⟩
      simp [hpk]
  · rw [List.any_eq_true]
    exact ⟨(k, v), by simp⟩

/-- After `Map.delete`, the key is absent. -/
theorem jsMapDelete_not_has {α : Type} (m : List (String × α)) (k : String) :
    jsMapHas (jsMapDelete m k) k = false := by
  unfold jsMapHas jsMapDelete
  rw [Bool.eq_false_iff]
  intro h
  rw [List.any_eq_true] at h
  obtain ⟨p, hp, hpk⟩ := h
  rw [List.mem_filter] at hp
  rw [decide_eq_true_iff] at hpk
  exact absurd hpk (by simpa using hp.2)

theorem processNextTask_stats (s : CState) :
    (processNextTask s).stats = s.stats := by
  unfold processNextTask
  split
  · rfl
  · split <;> rfl

theorem processNextTask_completedTasks (s : CState) :
    (processNextTask s).completedTasks = s.completedTasks := by
  unfold processNextTask
  split
  · rfl
  · split <;> rfl

theorem processNextTask_maxConcurrency (s : CState) :
    (processNextTask s).maxConcurrency = s.maxConcurrency := by
  unfold processNextTask
  split
  · rfl
  · split <;> rfl

/-! ### The concurrency-ceiling invariant (claim C1) -/

/-- The invariant: the running map never exceeds the ceiling. -/
def CeilingInv (s : CState) : Prop :=
  s.runningTasks.length ≤ s.maxConcurrency

theorem processNextTask_inv (s : CState) (h : CeilingInv s) :
    CeilingInv (processNextTask s) := by
  unfold CeilingInv processNextTask
  split
  · exact h
  · next hg =>
      split
      · exact h
      · show (jsMapSet s.runningTasks _ _).length ≤ s.maxConcurrency
        have hlt : s.runningTasks.length < s.maxConcurrency := by
          simp only [Bool.or_eq_true, Bool.not_eq_true', decide_eq_true_eq,
            not_or, Bool.not_eq_false] at hg
          omega
        exact le_trans (jsMapSet_length_le _ _ _) hlt

theorem addTask_inv (s : CState) (cfg : TaskCfg) (h : CeilingInv s) :
    CeilingInv (addTask s cfg).1 := by
  unfold addTask
  split
  · exact h
  · split
    · exact h
    · show CeilingInv (if _ then processNextTask _ else _)
      split
      · exact processNextTask_inv _ h
      · exact h

theorem settleTask_inv (s : CState) (t : QTask) (b : Bool) (h : CeilingInv s) :
    CeilingInv (settleTask s t b) := by
  unfold settleTask
  apply processNextTask_inv
  unfold CeilingInv
  split
  · exact le_trans (jsMapDelete_length_le _ _) h
  · exact le_trans (jsMapDelete_length_le _ _) h

theorem cancelTask_inv (s : CState) (tid : String) (h : CeilingInv s) :
    CeilingInv (cancelTask s tid).1 := by
  unfold cancelTask
  split
  · exact le_trans (jsMapDelete_length_le _ _) h
  · split
    · exact h
    · exact h

theorem start_inv (s : CState) (now : Nat) (h : CeilingInv s) :
    CeilingInv (start s now) := by
  unfold start
  split
  · exact h
  · exact processNextTask_inv _ h

theorem resume_inv (s : CState) (h : CeilingInv s) :
    CeilingInv (resume s) :=
  processNextTask_inv _ h

theorem step_inv (s s' : CState) (hs : Step s s') (h : CeilingInv s) :
    CeilingInv s' := by
  cases hs with
  | submit cfg => exact addTask_inv s cfg h
  | sched => exact processNextTask_inv s h
  | settle t success => exact settleTask_inv s t success h
  | cancel tid => exact cancelTask_inv s tid h
  | clear => exact h
  | doStart now => exact start_inv s now h
  | doStop now => exact h
  | doPause => exact h
  | doResume => exact resume_inv s h
  | retryTick => exact h
  | timerFire tid => exact h

/-- C1: for every sequence of submissions, cancellations and completions,
the running set never holds more than `maxConcurrency` tasks: at every
reachable state, `running.size() <= maxConcurrency`. -/
theorem C1_running_le_maxConcurrency (o : CtorOptions) (s : CState)
    (h : Reachable o s) : s.runningTasks.length ≤ s.maxConcurrency := by
  induction h with
  | init => exact Nat.zero_le _
  | step s s' _ hst ih => exact step_inv s s' hst ih

theorem C1_running_le_maxConcurrency_witness :
    sA.runningTasks.length ≤ sA.maxConcurrency :=
  C1_running_le_maxConcurrency opts1 sA
    (Reachable.step _ _
      (Reachable.step _ _ Reachable.init (Step.doStart _ 1))
      (Step.submit _ cfgA))

/-! ### Claim C2: priority insertion -/

/-- A queued task of priority 0. -/
def qa0 : QTask :=
  { id := "a", priority := some 0, attempts := 0, hasController := false }

/-- A new task of priority 10. -/
def qb10 : QTask :=
  { id := "b", priority := some 10, attempts := 0, hasController := false }

/-- `maxConcurrency = 1`; after `start()`, task `w` is dispatched and
running, then `a` (priority 0) and `b` (priority 10) are submitted in that
order and both stay queued. -/
def s2pre : CState :=
  (addTask (addTask (addTask sStart cfgW).1 cfgA).1 cfgB10).1

/-- The running task object for `w` in `s2pre`. -/
def wTask : QTask :=
  { id := "w", priority := some 0, attempts := 1, hasController := true }

/-- C2, evaluated at the failing input: `insertTaskByPriority` initializes
`insertIndex` to `taskQueue.length`, so a task whose priority exceeds every
queued task's priority is appended at the TAIL.  Submitting priority-10 `b`
while priority-0 `a` is queued yields the queue `[a, b]`, and when the
running task `w` settles and frees the slot, the priority-0 task `a` is
dispatched while the priority-10 task `b` stays queued — the opposite of the
claimed dispatch order. -/
theorem C2_high_priority_appended_at_tail :
    insertTaskByPriority [qa0] qb10 = [qa0, qb10] ∧
    s2pre.taskQueue.map QTask.id = ["a", "b"] ∧
    (settleTask s2pre wTask true).runningTasks.map Prod.fst = ["a"] ∧
    (settleTask s2pre wTask true).taskQueue.map QTask.id = ["b"] :=
  ⟨rfl, rfl, rfl, rfl⟩

/-! ### Claim C3: attempt counting -/

/-- C3, evaluated at the failing input: a task submitted with `retries = 2`
whose body rejects on every invocation.  The body is invoked exactly 3 times
and `stats.retriedTasks` grows by 2, but `task.attempts` is incremented once
per `executeTask` call (line 216), not once per attempt of the inner
`runTaskWithRetry` loop, so the final `TaskResult` has
`retryCount = attempts - 1 = 0` instead of the claimed 2. -/
theorem C3_retryCount_recorded_zero :
    (executeTaskRun "t" 0 (some 2) (fun _ => AttemptRes.settlesErr 1)
      (fun _ => false)).invocations = 3 ∧
    (executeTaskRun "t" 0 (some 2) (fun _ => AttemptRes.settlesErr 1)
      (fun _ => false)).retried = 2 ∧
    (executeTaskRun "t" 0 (some 2) (fun _ => AttemptRes.settlesErr 1)
      (fun _ => false)).result =
      some { id := "t", success := false, retryCount := 0 } ∧
    (executeTaskRun "t" 0 (some 2) (fun _ => AttemptRes.settlesErr 1)
      (fun _ => false)).attemptsField = 1 :=
  ⟨rfl, rfl, rfl, rfl⟩

/-! ### Claim C4: timeout enforcement -/

/-- C4, evaluated at the failing input: a task whose body never settles and
ignores the cancellation signal (here with `retries = 2` and a timer that
fires before any later attempt).  The timeout timer only calls
`abortController.abort()` (line 229); nothing races the body's promise, so
the `await` of line 233 never resumes: `executeTask` produces no
`TaskResult` (`result = none`), no retry happens after the hang
(`invocations = 1`), and retry/failure handling is never reached — the
controller keeps waiting on the body past the configured timeout. -/
theorem C4_hanging_body_never_times_out :
    (executeTaskRun "t" 0 (some 2) (fun _ => AttemptRes.hangs)
      (fun i => decide (1 ≤ i))).result = none ∧
    (executeTaskRun "t" 0 (some 2) (fun _ => AttemptRes.hangs)
      (fun i => decide (1 ≤ i))).invocations = 1 :=
  ⟨rfl, rfl⟩

/-! ### Claim C5: cancellation signal scope -/

/-- C5 counterexample: a task with `retries = 1` whose body fails both
times.  The claim (a fresh cancellation signal per attempt) would require as
many `AbortController` creations as body invocations; the code performs 2
invocations but creates only 1 controller. -/
theorem C5_counterexample_shared_signal :
    (executeTaskRun "t" 0 (some 1) (fun _ => AttemptRes.settlesErr 1)
      (fun _ => false)).invocations = 2 ∧
    (executeTaskRun "t" 0 (some 1) (fun _ => AttemptRes.settlesErr 1)
      (fun _ => false)).controllersCreated = 1 ∧
    ¬ ((executeTaskRun "t" 0 (some 1) (fun _ => AttemptRes.settlesErr 1)
        (fun _ => false)).controllersCreated =
       (executeTaskRun "t" 0 (some 1) (fun _ => AttemptRes.settlesErr 1)
        (fun _ => false)).invocations) :=
  ⟨rfl, rfl, by decide⟩

theorem runRetryGo_invocations_le (body : Nat → AttemptRes) (ab : Nat → Bool)
    (r : Nat) : ∀ (att : Nat) (e : Option MErr) (invs retr : Nat),
    (runRetryGo body ab att r e invs retr).invocations ≤ invs + r := by
  induction r with
  | zero =>
      intro att e invs retr
      simp [runRetryGo]
  | succ n ih =>
      intro att e invs retr
      unfold runRetryGo
      split
      · split
        · exact le_trans (ih _ _ _ _) (by omega)
        · simp
      · split
        · simp
        · split
          · exact le_trans (ih _ _ _ _) (by omega)
          · simp
        · simp

/-- C5 amended: `executeTask` creates exactly one cancellation signal
(`AbortController`) and one timeout timer per dispatched task execution,
shared by the first attempt and every retry performed inside
`runTaskWithRetry` (which performs at most `retries + 1` body invocations
with that same signal); the signal and timeout budget are per dispatch, not
per attempt. -/
theorem C5_one_controller_per_dispatch (tid : String) (a0 : Nat)
    (retries : Option Nat) (body : Nat → AttemptRes) (ab : Nat → Bool) :
    (executeTaskRun tid a0 retries body ab).controllersCreated = 1 ∧
    (executeTaskRun tid a0 retries body ab).timersCreated = 1 ∧
    (executeTaskRun tid a0 retries body ab).invocations ≤
      jsNatOr retries 0 + 1 := by
  refine ⟨rfl, rfl, ?_⟩
  show (runTaskWithRetry retries body ab).invocations ≤ _
  unfold runTaskWithRetry
  simpa using runRetryGo_invocations_le body ab _ 0 none 0 0

/-! ### Claim C6: cancel -/

/-- C6 counterexample: in `s6`, task `a` is running and `b` is queued.
`cancelTask(s6, "a")` returns true, aborts `a`'s signal and removes `a` from
the running set, but contrary to the claim it does NOT reject `a`'s future
(the rejection log stays empty — in the source the running branch, lines
374-381, never calls `task.reject`) and does NOT invoke the scheduler:
although the controller is running and the slot is now free, `b` stays
queued and nothing is running. -/
theorem C6_counterexample_running_cancel :
    jsMapHas s6.runningTasks "a" = true ∧
    (cancelTask s6 "a").2 = true ∧
    (cancelTask s6 "a").1.abortedIds = ["a"] ∧
    (cancelTask s6 "a").1.rejections = [] ∧
    (cancelTask s6 "a").1.resolutions = [] ∧
    (cancelTask s6 "a").1.runningTasks = [] ∧
    (cancelTask s6 "a").1.taskQueue.map QTask.id = ["b"] ∧
    (cancelTask s6 "a").1.isRunning = true :=
  ⟨rfl, rfl, rfl, rfl, rfl, rfl, rfl, rfl⟩

/-- C6 amended: `cancel(id)` on a running task aborts its cancellation
signal and removes it from the running set immediately and returns true, but
does not reject the task's future and does not invoke the scheduler (the
queue, the completed map and both settlement logs are untouched); `cancel(id)`
on a queued task removes the first queued task with that id, rejects its
future with `Cancelled`, leaves the running set untouched, and returns true;
if the id is neither running nor queued, `cancel` returns false and the
state is unchanged. -/
theorem C6_cancel_behavior (s : CState) (tid : String) :
    (jsMapHas s.runningTasks tid = true →
        (cancelTask s tid).2 = true ∧
        jsMapHas (cancelTask s tid).1.runningTasks tid = false ∧
        (∀ t, jsMapGet s.runningTasks tid = some t → t.hasController = true →
            (cancelTask s tid).1.abortedIds = s.abortedIds ++ [tid]) ∧
        (cancelTask s tid).1.rejections = s.rejections ∧
        (cancelTask s tid).1.resolutions = s.resolutions ∧
        (cancelTask s tid).1.taskQueue = s.taskQueue ∧
        (cancelTask s tid).1.completedTasks = s.completedTasks)
    ∧ (jsMapHas s.runningTasks tid = false →
        ∀ i, jsFindIndex (fun t => decide (t.id = tid)) s.taskQueue = some i →
          (cancelTask s tid).2 = true ∧
          (cancelTask s tid).1.rejections =
            s.rejections ++ [(tid, RejectReason.cancelled)] ∧
          (cancelTask s tid).1.taskQueue = removeAt s.taskQueue i ∧
          (cancelTask s tid).1.runningTasks = s.runningTasks ∧
          (cancelTask s tid).1.abortedIds = s.abortedIds)
    ∧ (jsMapHas s.runningTasks tid = false →
        jsFindIndex (fun t => decide (t.id = tid)) s.taskQueue = none →
          cancelTask s tid = (s, false)) := by
  refine ⟨?_, ?_, ?_⟩
  · intro h
    unfold cancelTask
    rw [if_pos h]
    refine ⟨rfl, jsMapDelete_not_has _ _, ?_, rfl, rfl, rfl, rfl⟩
    intro t ht hc
    simp [ht, hc]
  · intro h i hi
    unfold cancelTask
    rw [if_neg (by simp [h]), hi]
    exact ⟨rfl, rfl, rfl, rfl, rfl⟩
  · intro h hn
    unfold cancelTask
    rw [if_neg (by simp [h]), hn]

theorem C6_cancel_behavior_witness :
    ((cancelTask s6 "a").2 = true ∧
     jsMapHas (cancelTask s6 "a").1.runningTasks "a" = false ∧
     (cancelTask s6 "a").1.abortedIds = s6.abortedIds ++ ["a"] ∧
     (cancelTask s6 "a").1.rejections = s6.rejections ∧
     (cancelTask s6 "a").1.resolutions = s6.resolutions ∧
     (cancelTask s6 "a").1.taskQueue = s6.taskQueue ∧
     (cancelTask s6 "a").1.completedTasks = s6.completedTasks) ∧
    ((cancelTask s6 "b").2 = true ∧
     (cancelTask s6 "b").1.rejections =
       s6.rejections ++ [("b", RejectReason.cancelled)] ∧
     (cancelTask s6 "b").1.taskQueue = removeAt s6.taskQueue 0 ∧
     (cancelTask s6 "b").1.runningTasks = s6.runningTasks ∧
     (cancelTask s6 "b").1.abortedIds = s6.abortedIds) ∧
    cancelTask s6 "zz" = (s6, false) :=
  ⟨(fun h => ⟨h.1, h.2.1, h.2.2.1 aTask (by decide) (by decide),
      h.2.2.2.1, h.2.2.2.2.1, h.2.2.2.2.2.1, h.2.2.2.2.2.2⟩)
     ((C6_cancel_behavior s6 "a").1 (by decide)),
   (C6_cancel_behavior s6 "b").2.1 (by decide) 0 (by decide),
   (C6_cancel_behavior s6 "zz").2.2 (by decide) (by decide)⟩

/-! ### Claim C7: submission validation and capacity -/

/-- Options with `maxQueueSize = 1`. -/
def opts7 : CtorOptions :=
  { maxConcurrency := some 1, maxQueueSize := some 1,
    retryDelay := none, defaultTimeout := none }

/-- A (stopped) controller of `opts7` whose queue is at capacity. -/
def s7full : CState := (addTask (initState opts7) cfgA).1

/-- C7: a descriptor with a falsy `id` or missing `task` body is rejected
with the ValidationError before any queue insertion and the state (queue,
counters) is completely unchanged; a valid descriptor arriving when
`taskQueue.length >= maxQueueSize` is rejected with the QueueFullError,
again with the state unchanged. -/
theorem C7_submit_validation_and_capacity (s : CState) (cfg : TaskCfg) :
    ((idFalsy cfg.id = true ∨ cfg.task = false) →
        addTask s cfg = (s, SubmitOutcome.validationError)) ∧
    (idFalsy cfg.id = false → cfg.task = true →
      s.maxQueueSize ≤ s.taskQueue.length →
        addTask s cfg = (s, SubmitOutcome.queueFullError)) := by
  constructor
  · intro h
    unfold addTask
    have hb : (idFalsy cfg.id || !cfg.task) = true := by
      rcases h with h | h <;> simp [h]
    rw [if_pos hb]
  · intro h1 h2 h3
    unfold addTask
    rw [if_neg (by simp [h1, h2]), if_pos h3]

theorem C7_submit_validation_and_capacity_witness :
    addTask s7full { id := none, task := true, priority := none } =
      (s7full, SubmitOutcome.validationError) ∧
    addTask s7full cfgB = (s7full, SubmitOutcome.queueFullError) :=
  ⟨(C7_submit_validation_and_capacity s7full _).1 (Or.inl (by decide)),
   (C7_submit_validation_and_capacity s7full cfgB).2 (by decide) rfl
     (by decide)⟩

/-! ### Claim C8: getStats successRate and duration -/

/-- Formalization of the claim's words: `successRate` equals
`completedCount / totalSubmitted` (0 when `totalSubmitted` is 0). -/
def claimSuccessRate (s : CState) : ℚ :=
  if s.stats.totalTasks = 0 then 0
  else (s.stats.completedTasks : ℚ) / (s.stats.totalTasks : ℚ)

/-- Formalization of the claim's words: the elapsed duration equals
`(stoppedAt if set, otherwise now) - startedAt`, and is undefined (`none`)
when the controller was never started. -/
def claimDuration (s : CState) (now : Nat) : Option Int :=
  match s.stats.startTime with
  | none => none
  | some st =>
      some ((match s.stats.endTime with
             | some e => (e : Int)
             | none => (now : Int)) - (st : Int))

/-- Claim C8 at one state and clock reading: the snapshot's `successRate`
and (always-present) `duration` agree with the claim's words. -/
def C8ClaimAt (s : CState) (now : Nat) : Prop :=
  (getStats s now).successRate = claimSuccessRate s ∧
  some ((getStats s now).duration) = claimDuration s now

/-- Claim C8 as stated, over every state. -/
def C8Claim : Prop := ∀ (s : CState) (now : Nat), C8ClaimAt s now

/-- `sA` after its running task `a` settles successfully:
`totalTasks = 1`, `stats.completedTasks = 1`. -/
def s8succ : CState := settleTask sA aTask true

/-- C8 counterexample: the claim fails in both parts.  On a never-started
controller the snapshot's duration is the defined value 0, not undefined;
and after one successful task the snapshot's `successRate` is the
percentage 100 (the source computes `completed/total*100` and formats it as
a percent string), not the claimed ratio 1. -/
theorem C8_counterexample :
    ¬ C8Claim ∧
    (getStats (initState opts1) 5).duration = 0 ∧
    claimDuration (initState opts1) 5 = none ∧
    (getStats s8succ 99).successRate = 100 ∧
    claimSuccessRate s8succ = 1 := by
  refine ⟨fun h => ?_, rfl, rfl, ?_, ?_⟩
  · have h2 : some ((getStats (initState opts1) 5).duration) =
        claimDuration (initState opts1) 5 := (h (initState opts1) 5).2
    revert h2
    decide
  · show (if 0 < s8succ.stats.totalTasks then
        ((s8succ.stats.completedTasks : ℚ) / (s8succ.stats.totalTasks : ℚ)) * 100
      else 0) = 100
    rw [show s8succ.stats.totalTasks = 1 from rfl,
        show s8succ.stats.completedTasks = 1 from rfl]
    norm_num
  · show (if s8succ.stats.totalTasks = 0 then (0 : ℚ)
      else (s8succ.stats.completedTasks : ℚ) / (s8succ.stats.totalTasks : ℚ)) = 1
    rw [show s8succ.stats.totalTasks = 1 from rfl,
        show s8succ.stats.completedTasks = 1 from rfl]
    norm_num

/-- C8 amended, the successRate part: the reported rate is the percentage
`completedCount * 100 / totalSubmitted` (0 when nothing was submitted);
the source additionally formats it to two decimals with a percent sign,
which the snapshot elides. -/
def amendedSuccessRate (s : CState) : ℚ :=
  if s.stats.totalTasks = 0 then 0
  else (s.stats.completedTasks : ℚ) * 100 / (s.stats.totalTasks : ℚ)

/-- C8 amended, the duration part: when the controller has been started
(nonzero `startTime`), the duration is `(endTime if set and nonzero,
otherwise now) - startTime`; when it was never started the duration is the
defined value 0, not undefined. -/
def amendedDuration (s : CState) (now : Nat) : Int :=
  match s.stats.startTime with
  | none => 0
  | some st =>
      if st = 0 then 0
      else
        (match s.stats.endTime with
         | none => (now : Int)
         | some e => if e = 0 then (now : Int) else (e : Int)) - (st : Int)

/-- C8 amended: the snapshot reported by `getStats` realizes exactly the
amended successRate and duration above, at every state and clock reading. -/
theorem C8_stats_amended (s : CState) (now : Nat) :
    (getStats s now).successRate = amendedSuccessRate s ∧
    (getStats s now).duration = amendedDuration s now := by
  constructor
  · show (if 0 < s.stats.totalTasks then
        ((s.stats.completedTasks : ℚ) / (s.stats.totalTasks : ℚ)) * 100
      else 0) = amendedSuccessRate s
    unfold amendedSuccessRate
    rcases Nat.eq_zero_or_pos s.stats.totalTasks with h | h
    · rw [if_neg (by omega), if_pos h]
    · rw [if_pos h, if_neg (by omega), div_mul_eq_mul_div]
  · show (match s.stats.startTime with
      | none => (0 : Int)
      | some st =>
          if st = 0 then 0
          else (jsNatOr s.stats.endTime now : Int) - (st : Int)) =
      amendedDuration s now
    unfold amendedDuration
    cases s.stats.startTime with
    | none => rfl
    | some st =>
        show (if st = 0 then (0 : Int)
            else (jsNatOr s.stats.endTime now : Int) - (st : Int)) =
          if st = 0 then 0
          else
            (match s.stats.endTime with
             | none => (now : Int)
             | some e => if e = 0 then (now : Int) else (e : Int)) - (st : Int)
        by_cases hz : st = 0
        · rw [if_pos hz, if_pos hz]
        · rw [if_neg hz, if_neg hz]
          cases s.stats.endTime with
          | none => rfl
          | some e =>
              show ((jsNatOr (some e) now : Nat) : Int) - (st : Int) =
                (if e = 0 then (now : Int) else (e : Int)) - (st : Int)
              simp only [jsNatOr]
              by_cases hez : e = 0
              · rw [if_pos hez, if_pos hez]
              · rw [if_neg hez, if_neg hez]

/-! ### Claim C9: the reported completed count -/

/-- `sA` after its running task `a` settles as a failure (retry budget
exhausted): the completed map receives the failure entry, while the internal
success counter stays 0. -/
def s9fail : CState := settleTask sA aTask false

/-- C9: the completed-task count reported by `getStats` is the size of the
completed-results map; that map receives an entry for every settled task
whether it succeeded or failed; concretely, after the single task of `sA`
finishes by failure, `getStats` reports a completed count of 1 while the
internal success counter (used for the success rate) is 0, so the reported
completed count is not the number of successful tasks. -/
theorem C9_completed_count_is_map_size (s : CState) (now : Nat) (t : QTask)
    (b : Bool) :
    (getStats s now).completedTasks = s.completedTasks.length ∧
    jsMapHas (settleTask s t b).completedTasks t.id = true ∧
    (getStats s9fail 99).completedTasks = 1 ∧
    s9fail.stats.completedTasks = 0 ∧
    (getStats s9fail 99).successRate = 0 := by
  refine ⟨rfl, ?_, rfl, rfl, ?_⟩
  · cases b with
    | true =>
        show jsMapHas (settleTask s t true).completedTasks t.id = true
        simp only [settleTask]
        rw [processNextTask_completedTasks]
        exact jsMapSet_has _ _ _
    | false =>
        show jsMapHas (settleTask s t false).completedTasks t.id = true
        simp only [settleTask]
        rw [processNextTask_completedTasks]
        exact jsMapSet_has _ _ _
  · show (if 0 < s9fail.stats.totalTasks then
        ((s9fail.stats.completedTasks : ℚ) / (s9fail.stats.totalTasks : ℚ)) * 100
      else 0) = 0
    rw [show s9fail.stats.totalTasks = 1 from rfl,
        show s9fail.stats.completedTasks = 0 from rfl]
    norm_num

/-! ### Claim C10: restart does not reset the stop timestamp -/

/-- C10: `start()` records a new `startTime` but never clears `endTime`, and
`getStats` computes `(endTime || now) - startTime`; so after `stop()` at
time `t1` followed by `start()` at a later time `t2`, and before the next
`stop()`, the reported duration is the constant `t1 - t2 < 0`, for every
current clock reading `now` — it is not recomputed from the current time. -/
theorem C10_restart_negative_duration (s : CState) (t1 t2 now : Nat)
    (h1 : 0 < t1) (h2 : t1 < t2) :
    (getStats (start (stop s t1) t2) now).duration =
      (t1 : Int) - (t2 : Int) ∧
    (getStats (start (stop s t1) t2) now).duration < 0 := by
  have hrun : (stop s t1).isRunning = false := rfl
  have hstats : (start (stop s t1) t2).stats =
      { (stop s t1).stats with startTime := some t2 } := by
    unfold start
    rw [if_neg (by simp [hrun])]
    rw [processNextTask_stats]
  have hst : (start (stop s t1) t2).stats.startTime = some t2 := by
    rw [hstats]
  have hen : (start (stop s t1) t2).stats.endTime = some t1 := by
    rw [hstats]
    rfl
  have hd : (getStats (start (stop s t1) t2) now).duration =
      (t1 : Int) - (t2 : Int) := by
    simp only [getStats, hst, hen, jsNatOr]
    rw [if_neg (show ¬ t2 = 0 by omega), if_neg (show ¬ t1 = 0 by omega)]
  exact ⟨hd, by rw [hd]; omega⟩

theorem C10_restart_negative_duration_witness :
    (getStats (start (stop (initState opts1) 10) 20) 30).duration =
      (10 : Int) - (20 : Int) ∧
    (getStats (start (stop (initState opts1) 10) 20) 30).duration < 0 :=
  C10_restart_negative_duration (initState opts1) 10 20 30 (by decide)
    (by decide)

end ConcModel
